import Mathlib

/-!
# A shallow embedding of `os.c` (Mini-Project 2 real-time kernel)

The kernel state of `os.c` is a handful of globals: the TCB table `tcbs`, the
run pointer `RunPt`, the stack array `Stacks`, the two periodic-task function
pointers and a few statics.  They are gathered in one record `OS`, and every C
function becomes a function on that record.

Conventions.
* A pointer to a TCB only ever holds `&tcbs[k]` or `NULL`: it is an
  `Option (Fin NUMTHREADS)`.
* A stack pointer only ever holds `&Stacks[i][j]` or `NULL`: it is an
  `Option (Fin NUMTHREADS × Fin STACKSIZE)`.
* A function pointer is its 32-bit address, a `Nat` (`NULL` is `0`).
* A stack word (`int32_t`) is given by its 32-bit pattern, a `Nat` below `2^32`.
* Objects of static storage duration start out zeroed (`OS.boot`).
* Of the memory-mapped registers, the record keeps the reload register
  `TIMERn_TAILR_R` of the four timers and the three NVIC priority registers
  their set-up writes, starting from the hardware reset value 0.  The other
  writes of the timer set-up (clock gating, mode, flags, enable bits: their
  constants come from a header that is not among the sources) and the PLL and
  SysTick registers are outside the record.
-/

namespace OSKernel

/-- The `#define NUMTHREADS 20`: maximum number of threads. -/
abbrev NUMTHREADS : Nat := 20

/-- The `#define STACKSIZE 100`: number of 32-bit words in a stack. -/
abbrev STACKSIZE : Nat := 100

/-- Width of a machine word in values: `2^32`. -/
abbrev WORD : Nat := 4294967296

/-- Index of a TCB slot, the `k` of `&tcbs[k]`. -/
abbrev Slot := Fin NUMTHREADS

/-- The `struct tcb` of the source. -/
structure tcbType where
  /-- Pointer to stack (valid for threads not running). -/
  sp : Option (Slot × Fin STACKSIZE)
  /-- Linked list pointer. -/
  next : Option Slot
  /-- Thread identifier. -/
  id : Nat
  /-- Used to indicate if this tcb is available or not. -/
  available : Nat
deriving DecidableEq

/-- The globals of `os.c`. -/
structure OS where
  /-- The global `tcbType *RunPt`. -/
  RunPt : Option Slot
  /-- The global `tcbType tcbs[NUMTHREADS]`. -/
  tcbs : Slot → tcbType
  /-- The global `int32_t Stacks[NUMTHREADS][STACKSIZE]`. -/
  Stacks : Slot → Fin STACKSIZE → Nat
  /-- The global `void (*PeriodicTask1)(void)`. -/
  PeriodicTask1 : Nat
  /-- The global `void (*PeriodicTask2)(void)`. -/
  PeriodicTask2 : Nat
  /-- The `static uint16_t PeriodTaskCt` of `OS_AddPeriodicThread`. -/
  PeriodTaskCt : Nat
  /-- The `static uint32_t ThreadNum`. -/
  ThreadNum : Nat
  /-- The `static uint32_t MSTime`. -/
  MSTime : Nat
  /-- The I bit: `true` when interrupts are disabled. -/
  I : Bool
  /-- Reload register of timer 1A, which backs periodic task 1. -/
  TIMER1_TAILR_R : Nat
  /-- Reload register of timer 2A. -/
  TIMER2_TAILR_R : Nat
  /-- Reload register of timer 3A. -/
  TIMER3_TAILR_R : Nat
  /-- Reload register of timer 4A, which backs periodic task 2. -/
  TIMER4_TAILR_R : Nat
  /-- Priority register holding the fields of timers 1A (bits 15-13) and 2A
  (bits 31-29). -/
  NVIC_PRI5_R : Nat
  /-- Priority register holding the field of timer 3A (bits 31-29). -/
  NVIC_PRI8_R : Nat
  /-- Priority register holding the field of timer 4A (bits 23-21). -/
  NVIC_PRI17_R : Nat

/-- The state at reset: every object of static storage duration is zero. -/
def OS.boot : OS where
  RunPt := none
  tcbs := fun _ => { sp := none, next := none, id := 0, available := 0 }
  Stacks := fun _ _ => 0
  PeriodicTask1 := 0
  PeriodicTask2 := 0
  PeriodTaskCt := 0
  ThreadNum := 0
  MSTime := 0
  I := false
  TIMER1_TAILR_R := 0
  TIMER2_TAILR_R := 0
  TIMER3_TAILR_R := 0
  TIMER4_TAILR_R := 0
  NVIC_PRI5_R := 0
  NVIC_PRI8_R := 0
  NVIC_PRI17_R := 0

/-- Assignment to one field group of `tcbs[i]`. -/
def setTcb (s : OS) (i : Slot) (f : tcbType → tcbType) : OS :=
  { s with tcbs := fun k => if k = i then f (s.tcbs k) else s.tcbs k }

/-- The store `Stacks[i][j] = v` into an `int32_t` cell. -/
def setStack (s : OS) (i : Slot) (j : Fin STACKSIZE) (v : Nat) : OS :=
  { s with Stacks := fun k l => if k = i ∧ l = j then v % WORD else s.Stacks k l }

/-- Word `STACKSIZE - n` of a stack, for `1 ≤ n ≤ STACKSIZE`. -/
def top (n : Nat) : Fin STACKSIZE := ⟨(STACKSIZE - n) % STACKSIZE, Nat.mod_lt _ (by decide)⟩

/-- Modelled from the spec: `OS_DisableInterrupts` lives in an assembly file that
is not among the sources; it sets the I bit. -/
def OS_DisableInterrupts (s : OS) : OS := { s with I := true }

/-- Modelled from the spec: `StartCritical` lives in an assembly file that is not
among the sources; it returns the previous I bit and disables interrupts. -/
def StartCritical (s : OS) : OS × Bool := ({ s with I := true }, s.I)

/-- Modelled from the spec: `EndCritical` lives in an assembly file that is not
among the sources; it restores the I bit to the saved value. -/
def EndCritical (sr : Bool) (s : OS) : OS := { s with I := sr }

/-- The `unsigned long` subtraction `period - 1`. -/
def pred32 (period : Nat) : Nat := (period % WORD + (WORD - 1)) % WORD

/-- The function `InitTimer1A(period, priority)`: `TIMER1_TAILR_R = period - 1` and
`NVIC_PRI5_R = (NVIC_PRI5_R&0xFFFF00FF)|(priority << 13)`, the shift taken in 32
bits and not masked to the 3-bit field. -/
def InitTimer1A (period priority : Nat) (s : OS) : OS :=
  let (s, sr) := StartCritical s
  let s := { s with TIMER1_TAILR_R := pred32 period }
  let s := { s with NVIC_PRI5_R := (s.NVIC_PRI5_R &&& 0xFFFF00FF) ||| ((priority <<< 13) % WORD) }
  EndCritical sr s

/-- The function `InitTimer2A(period)`: `TIMER2_TAILR_R = period - 1` and
`NVIC_PRI5_R = (NVIC_PRI5_R&0x00FFFFFF)|(2 << 29)`. -/
def InitTimer2A (period : Nat) (s : OS) : OS :=
  let (s, sr) := StartCritical s
  let s := { s with TIMER2_TAILR_R := pred32 period }
  let s := { s with NVIC_PRI5_R := (s.NVIC_PRI5_R &&& 0x00FFFFFF) ||| (2 <<< 29) }
  EndCritical sr s

/-- The function `InitTimer3A()`: `TIMER3_TAILR_R = 0xFFFFFFFF - 1` and
`NVIC_PRI8_R = (NVIC_PRI8_R&0x00FFFFFF)|(1 << 29)`. -/
def InitTimer3A (s : OS) : OS :=
  let (s, sr) := StartCritical s
  let s := { s with TIMER3_TAILR_R := 0xFFFFFFFF - 1 }
  let s := { s with NVIC_PRI8_R := (s.NVIC_PRI8_R &&& 0x00FFFFFF) ||| (1 <<< 29) }
  EndCritical sr s

/-- The function `InitTimer4A(period, priority)`: `TIMER4_TAILR_R = period - 1` and
`NVIC_PRI17_R = (NVIC_PRI17_R&0xFF00FFFF)|(priority << 21)`, the shift taken in
32 bits and not masked to the 3-bit field. -/
def InitTimer4A (period priority : Nat) (s : OS) : OS :=
  let (s, sr) := StartCritical s
  let s := { s with TIMER4_TAILR_R := pred32 period }
  let s := { s with NVIC_PRI17_R := (s.NVIC_PRI17_R &&& 0xFF00FFFF) ||| ((priority <<< 21) % WORD) }
  EndCritical sr s

/-- The function `OS_ClearMsTime`: the body is empty in the source. -/
def OS_ClearMsTime (s : OS) : OS := s

/-- The loop `for(i=0;i<NUMTHREADS;i++){tcbs[i].available = 1;}` run from `i`,
with `n` iterations of fuel. -/
def initLoop : Nat → Nat → OS → OS
  | 0, _, s => s
  | n + 1, i, s =>
    if h : i < NUMTHREADS then
      initLoop n (i + 1) (setTcb s ⟨i, h⟩ (fun t => { t with available := 1 }))
    else s

/-- The function `OS_Init`, with the value of the macro `TIME_1MS` (defined in a header that is
not among the sources) as a parameter. -/
def OS_Init (TIME_1MS : Nat) (s : OS) : OS :=
  let s := OS_DisableInterrupts s
  let s := initLoop NUMTHREADS 0 s
  let s := InitTimer2A TIME_1MS s
  let s := InitTimer3A s
  OS_ClearMsTime s

/-- The function `SetInitialStack(i)`. -/
def SetInitialStack (i : Slot) (s : OS) : OS :=
  let s := setTcb s i (fun t => { t with sp := some (i, top 16) })
  let s := setStack s i (top 1) 0x01000000
  let s := setStack s i (top 3) 0x14141414
  let s := setStack s i (top 4) 0x12121212
  let s := setStack s i (top 5) 0x03030303
  let s := setStack s i (top 6) 0x02020202
  let s := setStack s i (top 7) 0x01010101
  let s := setStack s i (top 8) 0x00000000
  let s := setStack s i (top 9) 0x11111111
  let s := setStack s i (top 10) 0x10101010
  let s := setStack s i (top 11) 0x09090909
  let s := setStack s i (top 12) 0x08080808
  let s := setStack s i (top 13) 0x07070707
  let s := setStack s i (top 14) 0x06060606
  let s := setStack s i (top 15) 0x05050505
  setStack s i (top 16) 0x04040404

/-- The function `OS_Suspend`: the body is empty in the source. -/
def OS_Suspend (s : OS) : OS := s

/-- The function `OS_AddThreads(task0, task1, task2)`: the new state and the returned value. -/
def OS_AddThreads (task0 task1 task2 : Nat) (s : OS) : OS × Nat :=
  let (s, status) := StartCritical s
  let s := setTcb s 0 (fun t => { t with next := some 1 })
  let s := setTcb s 1 (fun t => { t with next := some 2 })
  let s := setTcb s 2 (fun t => { t with next := some 0 })
  let s := SetInitialStack 0 s
  let s := setStack s 0 (top 2) task0
  let s := SetInitialStack 1 s
  let s := setStack s 1 (top 2) task1
  let s := SetInitialStack 2 s
  let s := setStack s 2 (top 2) task2
  let s := { s with RunPt := some 0 }
  let s := EndCritical status s
  (s, 1)

/-- The function `OS_AddThread(task, stackSize, priority)`: the body is `return 1;`. -/
def OS_AddThread (_task _stackSize _priority : Nat) (s : OS) : OS × Nat := (s, 1)

/-- The function `OS_Id()`: `RunPt->id`; `none` when `RunPt` is `NULL`. -/
def OS_Id (s : OS) : Option Nat :=
  match s.RunPt with
  | none => none
  | some i => some (s.tcbs i).id

/-- The function `OS_Sleep(sleepTime)`: the body is empty in the source. -/
def OS_Sleep (_sleepTime : Nat) (s : OS) : OS := s

/-- The function `OS_Kill()`: the body is empty in the source. -/
def OS_Kill (s : OS) : OS := s

/-- The function `OS_AddPeriodicThread(task, period, priority)`: the new state and the
returned value. -/
def OS_AddPeriodicThread (task period priority : Nat) (s : OS) : OS × Nat :=
  let s :=
    if s.PeriodTaskCt = 0 then
      InitTimer1A period priority { s with PeriodicTask1 := task }
    else
      InitTimer4A period priority { s with PeriodicTask2 := task }
  let s := { s with PeriodTaskCt := (s.PeriodTaskCt + 1) % 65536 }
  (s, 1)

/-- The function `OS_Time()`: the body is `return 1;`. -/
def OS_Time (_s : OS) : Nat := 1

/-- The function `OS_TimeDifference(start, stop)`: the body is `return 1;`. -/
def OS_TimeDifference (_start _stop : Nat) : Nat := 1

/-- The function `OS_MsTime()`: the body is `return 1;`. -/
def OS_MsTime (_s : OS) : Nat := 1

/-- The function `Scheduler()`: `RunPt = RunPt->next`; `none` when `RunPt` is `NULL`. -/
def Scheduler (s : OS) : Option OS :=
  match s.RunPt with
  | none => none
  | some i => some { s with RunPt := (s.tcbs i).next }

/-! ## Derived notions used to state the properties -/

/-- The run pointers selected by `n` consecutive calls of `Scheduler`, in order;
`none` if one of the calls dereferences a `NULL` run pointer. -/
def selections : Nat → OS → Option (List (Option Slot))
  | 0, _ => some []
  | n + 1, s =>
    match Scheduler s with
    | none => none
    | some s1 => (selections n s1).map (fun l => s1.RunPt :: l)

/-- The TCB slot of one of the three threads of `OS_AddThreads`. -/
def slot3 (r : Fin 3) : Slot := Fin.castLE (by decide) r

/-- The state with the run pointer moved to `&tcbs[r]`. -/
def withRunPt (s : OS) (r : Slot) : OS := { s with RunPt := some r }

/-- The 16 stack words of thread `i` from word `STACKSIZE - 16` to the top. -/
def frame (s : OS) (i : Slot) : List Nat :=
  (List.finRange 16).map (fun k => s.Stacks i ⟨STACKSIZE - 16 + k.val, by show 100 - 16 + k.val < 100; omega⟩)

/-- The TCB reached from `p` by following `next` for `n` steps. -/
def follow (s : OS) : Nat → Option Slot → Option Slot
  | 0, p => p
  | n + 1, p =>
    match p with
    | none => none
    | some i => follow s n (s.tcbs i).next

/-- A sequence of `OS_AddPeriodicThread` calls, each given as
`(task, period, priority)`: the final state and the returned values. -/
def addPeriodicSeq : List (Nat × Nat × Nat) → OS → OS × List Nat
  | [], s => (s, [])
  | (task, period, priority) :: cs, s =>
    let r := OS_AddPeriodicThread task period priority s
    let rest := addPeriodicSeq cs r.1
    (rest.1, r.2 :: rest.2)

/-- A sequence of `OS_AddThread` calls, each given as
`(task, stackSize, priority)`: the final state and the returned values. -/
def addThreadSeq : List (Nat × Nat × Nat) → OS → OS × List Nat
  | [], s => (s, [])
  | (task, stackSize, priority) :: cs, s =>
    let r := OS_AddThread task stackSize priority s
    let rest := addThreadSeq cs r.1
    (rest.1, r.2 :: rest.2)

/-! ## Basic facts about the ring built by `OS_AddThreads` -/

theorem addThreads_next (t0 t1 t2 : Nat) (s : OS) :
    ((OS_AddThreads t0 t1 t2 s).1.tcbs 0).next = some 1 ∧
    ((OS_AddThreads t0 t1 t2 s).1.tcbs 1).next = some 2 ∧
    ((OS_AddThreads t0 t1 t2 s).1.tcbs 2).next = some 0 := by
  simp [OS_AddThreads, SetInitialStack, setTcb, setStack, StartCritical, EndCritical]

theorem scheduler_step (s : OS) (r j : Slot) (h : (s.tcbs r).next = some j) :
    Scheduler (withRunPt s r) = some (withRunPt s j) := by
  simp [Scheduler, withRunPt, h]

theorem selections_three (s : OS) (a b c : Slot) (hab : (s.tcbs a).next = some b)
    (hbc : (s.tcbs b).next = some c) (hca : (s.tcbs c).next = some a) (n : Nat) :
    selections (n + 3) (withRunPt s a) =
      (selections n (withRunPt s a)).map (fun l => some b :: some c :: some a :: l) := by
  have e1 : selections (n + 3) (withRunPt s a) =
      (selections (n + 2) (withRunPt s b)).map (fun l => some b :: l) := by
    show (match Scheduler (withRunPt s a) with
      | none => none
      | some s1 => (selections (n + 2) s1).map (fun l => s1.RunPt :: l)) = _
    rw [scheduler_step s a b hab]; rfl
  have e2 : selections (n + 2) (withRunPt s b) =
      (selections (n + 1) (withRunPt s c)).map (fun l => some c :: l) := by
    show (match Scheduler (withRunPt s b) with
      | none => none
      | some s1 => (selections (n + 1) s1).map (fun l => s1.RunPt :: l)) = _
    rw [scheduler_step s b c hbc]; rfl
  have e3 : selections (n + 1) (withRunPt s c) =
      (selections n (withRunPt s a)).map (fun l => some a :: l) := by
    show (match Scheduler (withRunPt s c) with
      | none => none
      | some s1 => (selections n s1).map (fun l => s1.RunPt :: l)) = _
    rw [scheduler_step s c a hca]; rfl
  rw [e1, e2, e3]
  cases selections n (withRunPt s a) <;> rfl

theorem selections_cycle (s : OS) (a b c : Slot) (hab : (s.tcbs a).next = some b)
    (hbc : (s.tcbs b).next = some c) (hca : (s.tcbs c).next = some a) (m : Nat) :
    ∃ l, selections (3 * m) (withRunPt s a) = some l ∧
      ∀ x, l.count x = m * [some b, some c, some a].count x := by
  induction m with
  | zero => exact ⟨[], rfl, fun x => by simp⟩
  | succ k ih =>
    obtain ⟨l, hl, hc⟩ := ih
    refine ⟨some b :: some c :: some a :: l, ?_, ?_⟩
    · have : 3 * (k + 1) = 3 * k + 3 := by ring
      rw [this, selections_three s a b c hab hbc hca, hl]; rfl
    · intro x
      have : (some b :: some c :: some a :: l).count x =
          [some b, some c, some a].count x + l.count x := by
        rw [show some b :: some c :: some a :: l = [some b, some c, some a] ++ l from rfl,
          List.count_append]
      rw [this, hc x]; ring

/-! ## Basic facts about `OS_AddPeriodicThread` -/

theorem addPeriodic_fields (task period priority : Nat) (s : OS) :
    (OS_AddPeriodicThread task period priority s).2 = 1 ∧
    (OS_AddPeriodicThread task period priority s).1.PeriodTaskCt =
      (s.PeriodTaskCt + 1) % 65536 ∧
    (OS_AddPeriodicThread task period priority s).1.PeriodicTask1 =
      (if s.PeriodTaskCt = 0 then task else s.PeriodicTask1) ∧
    (OS_AddPeriodicThread task period priority s).1.PeriodicTask2 =
      (if s.PeriodTaskCt = 0 then s.PeriodicTask2 else task) := by
  by_cases h : s.PeriodTaskCt = 0 <;>
    simp [OS_AddPeriodicThread, InitTimer1A, InitTimer4A, StartCritical, EndCritical, h]

theorem addPeriodicSeq_later (cs : List (Nat × Nat × Nat)) :
    ∀ s : OS, 1 ≤ s.PeriodTaskCt → s.PeriodTaskCt < 65536 →
      s.PeriodTaskCt + cs.length ≤ 65536 →
      (addPeriodicSeq cs s).1.PeriodicTask1 = s.PeriodicTask1 ∧
      (addPeriodicSeq cs s).1.PeriodicTask2 =
        (cs.getLast?.map Prod.fst).getD s.PeriodicTask2 ∧
      (addPeriodicSeq cs s).1.PeriodTaskCt = (s.PeriodTaskCt + cs.length) % 65536 ∧
      (addPeriodicSeq cs s).2 = List.replicate cs.length 1 := by
  induction cs with
  | nil =>
    intro s _ hlt0 _
    simp [addPeriodicSeq, Nat.mod_eq_of_lt hlt0]
  | cons c cs ih =>
    intro s h1 _ h2
    obtain ⟨task, period, priority⟩ := c
    obtain ⟨hr, hct, hp1, hp2⟩ := addPeriodic_fields task period priority s
    have hne : s.PeriodTaskCt ≠ 0 := by omega
    rw [if_neg hne] at hp1 hp2
    simp only [List.length_cons] at h2
    cases cs with
    | nil =>
      simp [addPeriodicSeq, hr, hct, hp1, hp2]
    | cons d ds =>
      have hlt : s.PeriodTaskCt + 1 < 65536 := by
        simp only [List.length_cons] at h2; omega
      rw [Nat.mod_eq_of_lt hlt] at hct
      have ih1 := ih (OS_AddPeriodicThread task period priority s).1
        (by rw [hct]; omega) (by rw [hct]; exact hlt) (by rw [hct]; omega)
      obtain ⟨i1, i2, i3, i4⟩ := ih1
      have hx : (d :: ds).getLast? = some ((d :: ds).getLast (by simp)) :=
        List.getLast?_eq_getLast _ _
      refine ⟨?_, ?_, ?_, ?_⟩
      · show (addPeriodicSeq (d :: ds) (OS_AddPeriodicThread task period priority s).1).1.PeriodicTask1 = _
        rw [i1, hp1]
      · show (addPeriodicSeq (d :: ds) (OS_AddPeriodicThread task period priority s).1).1.PeriodicTask2 = _
        rw [i2, List.getLast?_cons_cons, hx]; rfl
      · show (addPeriodicSeq (d :: ds) (OS_AddPeriodicThread task period priority s).1).1.PeriodTaskCt = _
        rw [i3, hct]
        congr 1
        simp only [List.length_cons]; omega
      · show (OS_AddPeriodicThread task period priority s).2 ::
            (addPeriodicSeq (d :: ds) (OS_AddPeriodicThread task period priority s).1).2 = _
        rw [i4, hr]; rfl

theorem addPeriodicSeq_boot (c : Nat × Nat × Nat) (cs : List (Nat × Nat × Nat))
    (hmax : cs.length + 1 ≤ 65536) :
    (addPeriodicSeq (c :: cs) OS.boot).1.PeriodicTask1 = c.1 ∧
    (addPeriodicSeq (c :: cs) OS.boot).1.PeriodicTask2 = (cs.getLast?.map Prod.fst).getD 0 ∧
    (addPeriodicSeq (c :: cs) OS.boot).1.PeriodTaskCt = (cs.length + 1) % 65536 ∧
    (addPeriodicSeq (c :: cs) OS.boot).2 = List.replicate (cs.length + 1) 1 := by
  obtain ⟨task, period, priority⟩ := c
  obtain ⟨hr, hct, hp1, hp2⟩ := addPeriodic_fields task period priority OS.boot
  have h0 : OS.boot.PeriodTaskCt = 0 := rfl
  rw [if_pos h0] at hp1 hp2
  rw [h0] at hct
  have hct1 : (OS_AddPeriodicThread task period priority OS.boot).1.PeriodTaskCt = 1 := hct
  obtain ⟨i1, i2, i3, i4⟩ := addPeriodicSeq_later cs
    (OS_AddPeriodicThread task period priority OS.boot).1 (by rw [hct1]) (by rw [hct1]; decide)
    (by rw [hct1]; omega)
  refine ⟨?_, ?_, ?_, ?_⟩
  · show (addPeriodicSeq cs (OS_AddPeriodicThread task period priority OS.boot).1).1.PeriodicTask1 = _
    rw [i1, hp1]
  · show (addPeriodicSeq cs (OS_AddPeriodicThread task period priority OS.boot).1).1.PeriodicTask2 = _
    rw [i2, hp2]; rfl
  · show (addPeriodicSeq cs (OS_AddPeriodicThread task period priority OS.boot).1).1.PeriodTaskCt = _
    rw [i3, hct1, Nat.add_comm]
  · show (OS_AddPeriodicThread task period priority OS.boot).2 ::
        (addPeriodicSeq cs (OS_AddPeriodicThread task period priority OS.boot).1).2 = _
    rw [i4, hr]; rfl

theorem addPeriodicSeq_append (cs : List (Nat × Nat × Nat)) (c : Nat × Nat × Nat) :
    ∀ s : OS, (addPeriodicSeq (cs ++ [c]) s).1 =
      (OS_AddPeriodicThread c.1 c.2.1 c.2.2 (addPeriodicSeq cs s).1).1 := by
  induction cs with
  | nil => intro s; rfl
  | cons d ds ih =>
    intro s
    show (addPeriodicSeq (ds ++ [c]) (OS_AddPeriodicThread d.1 d.2.1 d.2.2 s).1).1 = _
    rw [ih]; rfl

/-- After exactly 65536 calls the 16-bit counter is back at zero, so one more call
binds channel A anew. -/
theorem addPeriodic_wrap_rebinds_A (c0 : Nat × Nat × Nat) (cs : List (Nat × Nat × Nat))
    (c : Nat × Nat × Nat) (hlen : cs.length + 1 = 65536) :
    (addPeriodicSeq ((c0 :: cs) ++ [c]) OS.boot).1.PeriodicTask1 = c.1 := by
  obtain ⟨_, _, hct, _⟩ := addPeriodicSeq_boot c0 cs (by omega)
  rw [hlen] at hct
  rw [addPeriodicSeq_append]
  obtain ⟨_, _, hp1, _⟩ := addPeriodic_fields c.1 c.2.1 c.2.2 (addPeriodicSeq (c0 :: cs) OS.boot).1
  rw [hp1, if_pos hct]

/-- What the code does on a sequence of `n` calls of `OS_AddPeriodicThread` from
the reset state with `2 ≤ n ≤ 65536`: `PeriodicTask1` ends as the callback of
the first call and `PeriodicTask2` as the callback of the last call. -/
theorem addPeriodicSeq_bindings (cs : List (Nat × Nat × Nat))
    (h2 : 2 ≤ cs.length) (hmax : cs.length ≤ 65536) :
    cs.head?.map Prod.fst = some (addPeriodicSeq cs OS.boot).1.PeriodicTask1 ∧
    cs.getLast?.map Prod.fst = some (addPeriodicSeq cs OS.boot).1.PeriodicTask2 := by
  match cs, h2, hmax with
  | c :: d :: ds, _, hmax =>
    obtain ⟨b1, b2, _, _⟩ := addPeriodicSeq_boot c (d :: ds) hmax
    have hx : (d :: ds).getLast? = some ((d :: ds).getLast (by simp)) :=
      List.getLast?_eq_getLast _ _
    rw [hx] at b2
    refine ⟨?_, ?_⟩
    · rw [b1]; rfl
    · rw [b2, List.getLast?_cons_cons, hx]; rfl

/-! ## The claims -/

/-- C1 (round-robin fairness): on the ring built by `OS_AddThreads`, whose run
pointer starts at `tcbs[0]`, from any of the three threads as run pointer three
consecutive calls of `Scheduler` select the three TCBs in ring order
`0 → 1 → 2 → 0`, each exactly once, and over `3 * m` consecutive calls every
one of the three threads is selected exactly `m` times. -/
theorem C1_round_robin (t0 t1 t2 : Nat) (s : OS) (r : Fin 3) :
    (OS_AddThreads t0 t1 t2 s).1.RunPt = some 0 ∧
    selections 3 (withRunPt (OS_AddThreads t0 t1 t2 s).1 (slot3 r)) =
      some [some (slot3 (r + 1)), some (slot3 (r + 2)), some (slot3 r)] ∧
    ∀ (m : Nat) (i : Fin 3), ∃ l,
      selections (3 * m) (withRunPt (OS_AddThreads t0 t1 t2 s).1 (slot3 r)) = some l ∧
      l.count (some (slot3 i)) = m := by
  obtain ⟨h01, h12, h20⟩ := addThreads_next t0 t1 t2 s
  refine ⟨rfl, ?_, ?_⟩
  · have h := fun a b c hab hbc hca =>
      selections_three (OS_AddThreads t0 t1 t2 s).1 a b c hab hbc hca 0
    fin_cases r
    · exact h 0 1 2 h01 h12 h20
    · exact h 1 2 0 h12 h20 h01
    · exact h 2 0 1 h20 h01 h12
  · intro m i
    have h := fun a b c hab hbc hca =>
      selections_cycle (OS_AddThreads t0 t1 t2 s).1 a b c hab hbc hca m
    fin_cases r
    · obtain ⟨l, hl, hc⟩ := h 0 1 2 h01 h12 h20
      refine ⟨l, hl, ?_⟩
      rw [hc, show List.count (some (slot3 i)) _ = 1 by fin_cases i <;> decide, Nat.mul_one]
    · obtain ⟨l, hl, hc⟩ := h 1 2 0 h12 h20 h01
      refine ⟨l, hl, ?_⟩
      rw [hc, show List.count (some (slot3 i)) _ = 1 by fin_cases i <;> decide, Nat.mul_one]
    · obtain ⟨l, hl, hc⟩ := h 2 0 1 h20 h01 h12
      refine ⟨l, hl, ?_⟩
      rw [hc, show List.count (some (slot3 i)) _ = 1 by fin_cases i <;> decide, Nat.mul_one]

theorem addThreads_frame0 (t0 t1 t2 : Nat) (s : OS) :
    ((OS_AddThreads t0 t1 t2 s).1.tcbs 0).sp = some (0, ⟨STACKSIZE - 16, by decide⟩) ∧
    frame (OS_AddThreads t0 t1 t2 s).1 0 =
      [0x04040404, 0x05050505, 0x06060606, 0x07070707, 0x08080808, 0x09090909,
       0x10101010, 0x11111111, 0x00000000, 0x01010101, 0x02020202, 0x03030303,
       0x12121212, 0x14141414, t0 % WORD, 0x01000000] :=
  ⟨rfl, rfl⟩

theorem addThreads_frame1 (t0 t1 t2 : Nat) (s : OS) :
    ((OS_AddThreads t0 t1 t2 s).1.tcbs 1).sp = some (1, ⟨STACKSIZE - 16, by decide⟩) ∧
    frame (OS_AddThreads t0 t1 t2 s).1 1 =
      [0x04040404, 0x05050505, 0x06060606, 0x07070707, 0x08080808, 0x09090909,
       0x10101010, 0x11111111, 0x00000000, 0x01010101, 0x02020202, 0x03030303,
       0x12121212, 0x14141414, t1 % WORD, 0x01000000] :=
  ⟨rfl, rfl⟩

theorem addThreads_frame2 (t0 t1 t2 : Nat) (s : OS) :
    ((OS_AddThreads t0 t1 t2 s).1.tcbs 2).sp = some (2, ⟨STACKSIZE - 16, by decide⟩) ∧
    frame (OS_AddThreads t0 t1 t2 s).1 2 =
      [0x04040404, 0x05050505, 0x06060606, 0x07070707, 0x08080808, 0x09090909,
       0x10101010, 0x11111111, 0x00000000, 0x01010101, 0x02020202, 0x03030303,
       0x12121212, 0x14141414, t2 % WORD, 0x01000000] :=
  ⟨rfl, rfl⟩

/-- C2 (initial resume frame): after `OS_AddThreads(t0, t1, t2)`, for each of the
three threads the saved stack pointer designates word `STACKSIZE - 16` of the
thread's own stack, and the 16 words from there to the top are R4..R11, R0..R3,
R12, LR, PC and PSR with the documented pattern, PC being the thread's entry
point (a 32-bit address). -/
theorem C2_initial_frame (t0 t1 t2 : Nat) (s : OS)
    (h0 : t0 < WORD) (h1 : t1 < WORD) (h2 : t2 < WORD) :
    (((OS_AddThreads t0 t1 t2 s).1.tcbs 0).sp = some (0, ⟨STACKSIZE - 16, by decide⟩) ∧
      frame (OS_AddThreads t0 t1 t2 s).1 0 =
        [0x04040404, 0x05050505, 0x06060606, 0x07070707, 0x08080808, 0x09090909,
         0x10101010, 0x11111111, 0x00000000, 0x01010101, 0x02020202, 0x03030303,
         0x12121212, 0x14141414, t0, 0x01000000]) ∧
    (((OS_AddThreads t0 t1 t2 s).1.tcbs 1).sp = some (1, ⟨STACKSIZE - 16, by decide⟩) ∧
      frame (OS_AddThreads t0 t1 t2 s).1 1 =
        [0x04040404, 0x05050505, 0x06060606, 0x07070707, 0x08080808, 0x09090909,
         0x10101010, 0x11111111, 0x00000000, 0x01010101, 0x02020202, 0x03030303,
         0x12121212, 0x14141414, t1, 0x01000000]) ∧
    (((OS_AddThreads t0 t1 t2 s).1.tcbs 2).sp = some (2, ⟨STACKSIZE - 16, by decide⟩) ∧
      frame (OS_AddThreads t0 t1 t2 s).1 2 =
        [0x04040404, 0x05050505, 0x06060606, 0x07070707, 0x08080808, 0x09090909,
         0x10101010, 0x11111111, 0x00000000, 0x01010101, 0x02020202, 0x03030303,
         0x12121212, 0x14141414, t2, 0x01000000]) := by
  have e0 := addThreads_frame0 t0 t1 t2 s
  have e1 := addThreads_frame1 t0 t1 t2 s
  have e2 := addThreads_frame2 t0 t1 t2 s
  rw [Nat.mod_eq_of_lt h0] at e0
  rw [Nat.mod_eq_of_lt h1] at e1
  rw [Nat.mod_eq_of_lt h2] at e2
  exact ⟨e0, e1, e2⟩

/-- Witness for C2 at entry points `0x00000401`, `0x00000801`, `0x00000C01` and
the reset state. -/
theorem C2_initial_frame_witness :
    (((OS_AddThreads 0x401 0x801 0xC01 OS.boot).1.tcbs 0).sp =
        some (0, ⟨STACKSIZE - 16, by decide⟩) ∧
      frame (OS_AddThreads 0x401 0x801 0xC01 OS.boot).1 0 =
        [0x04040404, 0x05050505, 0x06060606, 0x07070707, 0x08080808, 0x09090909,
         0x10101010, 0x11111111, 0x00000000, 0x01010101, 0x02020202, 0x03030303,
         0x12121212, 0x14141414, 0x401, 0x01000000]) ∧
    (((OS_AddThreads 0x401 0x801 0xC01 OS.boot).1.tcbs 1).sp =
        some (1, ⟨STACKSIZE - 16, by decide⟩) ∧
      frame (OS_AddThreads 0x401 0x801 0xC01 OS.boot).1 1 =
        [0x04040404, 0x05050505, 0x06060606, 0x07070707, 0x08080808, 0x09090909,
         0x10101010, 0x11111111, 0x00000000, 0x01010101, 0x02020202, 0x03030303,
         0x12121212, 0x14141414, 0x801, 0x01000000]) ∧
    (((OS_AddThreads 0x401 0x801 0xC01 OS.boot).1.tcbs 2).sp =
        some (2, ⟨STACKSIZE - 16, by decide⟩) ∧
      frame (OS_AddThreads 0x401 0x801 0xC01 OS.boot).1 2 =
        [0x04040404, 0x05050505, 0x06060606, 0x07070707, 0x08080808, 0x09090909,
         0x10101010, 0x11111111, 0x00000000, 0x01010101, 0x02020202, 0x03030303,
         0x12121212, 0x14141414, 0xC01, 0x01000000]) :=
  C2_initial_frame 0x401 0x801 0xC01 OS.boot (by decide) (by decide) (by decide)

/-- C3 (pool capacity, evaluated on the code): after `OS_Init`, twenty-one calls of
`OS_AddThread` all return 1, the twenty-first included, and the state is exactly
the one `OS_Init` left: no slot was taken by any of the calls. -/
theorem C3_twenty_first_call_returns_one (TIME_1MS : Nat) :
    (addThreadSeq (List.replicate (NUMTHREADS + 1) (0x401, 128, 1))
        (OS_Init TIME_1MS OS.boot)).2 = List.replicate (NUMTHREADS + 1) 1 ∧
    (addThreadSeq (List.replicate (NUMTHREADS + 1) (0x401, 128, 1))
        (OS_Init TIME_1MS OS.boot)).2.get? NUMTHREADS = some 1 ∧
    (addThreadSeq (List.replicate (NUMTHREADS + 1) (0x401, 128, 1))
        (OS_Init TIME_1MS OS.boot)).1 = OS_Init TIME_1MS OS.boot :=
  ⟨rfl, rfl, rfl⟩

/-- C4 (cap of two periodic channels, evaluated on the code): for every three
callbacks, periods and priorities, from the reset state all three calls of
`OS_AddPeriodicThread` return 1, the third included; the third call overwrites
the binding of channel B (`PeriodicTask2` becomes the third callback, the
second is lost) and programs timer 4A again (reload `p3 - 1`, the priority
field of the second call wiped and the third priority written), while channel
A and timer 1A keep the first call. -/
theorem C4_third_call_returns_one (c1 c2 c3 p1 p2 p3 q1 q2 q3 : Nat) :
    (addPeriodicSeq [(c1, p1, q1), (c2, p2, q2), (c3, p3, q3)] OS.boot).2 = [1, 1, 1] ∧
    (addPeriodicSeq [(c1, p1, q1), (c2, p2, q2), (c3, p3, q3)] OS.boot).2.get? 2 = some 1 ∧
    (addPeriodicSeq [(c1, p1, q1), (c2, p2, q2)] OS.boot).1.PeriodicTask2 = c2 ∧
    (addPeriodicSeq [(c1, p1, q1), (c2, p2, q2), (c3, p3, q3)] OS.boot).1.PeriodicTask2 = c3 ∧
    (addPeriodicSeq [(c1, p1, q1), (c2, p2, q2), (c3, p3, q3)] OS.boot).1.PeriodicTask1 = c1 ∧
    (addPeriodicSeq [(c1, p1, q1), (c2, p2, q2), (c3, p3, q3)] OS.boot).1.TIMER1_TAILR_R =
      pred32 p1 ∧
    (addPeriodicSeq [(c1, p1, q1), (c2, p2, q2), (c3, p3, q3)] OS.boot).1.TIMER4_TAILR_R =
      pred32 p3 ∧
    (addPeriodicSeq [(c1, p1, q1), (c2, p2, q2), (c3, p3, q3)] OS.boot).1.NVIC_PRI17_R =
      (((q2 <<< 21) % WORD) &&& 0xFF00FFFF) ||| ((q3 <<< 21) % WORD) := by
  refine ⟨rfl, rfl, rfl, rfl, rfl, rfl, rfl, ?_⟩
  show ((((0 : Nat) &&& 0xFF00FFFF) ||| ((q2 <<< 21) % WORD)) &&& 0xFF00FFFF) |||
      ((q3 <<< 21) % WORD) = _
  rw [Nat.zero_and, Nat.zero_or]

/-- C5 (bound once, evaluated on the code): after three calls from the reset state
channel A is still bound to the first callback `0x401`, but channel B is bound
to the third callback `0xC01` and no longer to the second, `0x801`. -/
theorem C5_second_binding_lost :
    (addPeriodicSeq [(0x401, 80000, 1), (0x801, 80000, 1), (0xC01, 80000, 1)]
        OS.boot).1.PeriodicTask1 = 0x401 ∧
    (addPeriodicSeq [(0x401, 80000, 1), (0x801, 80000, 1), (0xC01, 80000, 1)]
        OS.boot).1.PeriodicTask2 = 0xC01 ∧
    ¬ ((addPeriodicSeq [(0x401, 80000, 1), (0x801, 80000, 1), (0xC01, 80000, 1)]
          OS.boot).1.PeriodicTask1 = 0x401 ∧
       (addPeriodicSeq [(0x401, 80000, 1), (0x801, 80000, 1), (0xC01, 80000, 1)]
          OS.boot).1.PeriodicTask2 = 0x801) := by
  decide

/-- C6 (time difference, evaluated on the code): `OS_TimeDifference(0xFFFFFFFF, 1)`
returns 1, which is not `(1 - 0xFFFFFFFF) mod 2^32 = 2`. -/
theorem C6_time_difference_returns_one :
    OS_TimeDifference 0xFFFFFFFF 1 = 1 ∧
    (1 + (WORD - 0xFFFFFFFF)) % WORD = 2 ∧
    OS_TimeDifference 0xFFFFFFFF 1 ≠ (1 + (WORD - 0xFFFFFFFF)) % WORD := by
  decide

/-- C7 (sleep, evaluated on the code): on the ring built by `OS_AddThreads`, after
the running thread `tcbs[0]` calls `OS_Sleep(d)`, whatever `d` is, the third
call of `Scheduler` selects `tcbs[0]` again; with `d = 4` that is at elapsed
tick 3, before the sleep has expired. -/
theorem C7_sleeper_selected_at_tick_three (t0 t1 t2 d : Nat) (s : OS) :
    (OS_Sleep d (OS_AddThreads t0 t1 t2 s).1).RunPt = some 0 ∧
    selections 3 (OS_Sleep d (OS_AddThreads t0 t1 t2 s).1) = some [some 1, some 2, some 0] :=
  ⟨rfl, rfl⟩

/-- C8 (kill, evaluated on the code): on the ring built by `OS_AddThreads`, after
the running thread `tcbs[0]` calls `OS_Kill`, `tcbs[0]` is still the run pointer
and still the successor of `tcbs[2]`, following `next` from the survivor
`tcbs[1]` is back at `tcbs[1]` after three steps and not after two, and the
`available` mark of `tcbs[0]` is what it was before. -/
theorem C8_kill_leaves_ring_unchanged (t0 t1 t2 : Nat) (s : OS) :
    (OS_Kill (OS_AddThreads t0 t1 t2 s).1).RunPt = some 0 ∧
    ((OS_Kill (OS_AddThreads t0 t1 t2 s).1).tcbs 2).next = some 0 ∧
    follow (OS_Kill (OS_AddThreads t0 t1 t2 s).1) 2 (some 1) = some 0 ∧
    follow (OS_Kill (OS_AddThreads t0 t1 t2 s).1) 3 (some 1) = some 1 ∧
    ((OS_Kill (OS_AddThreads t0 t1 t2 s).1).tcbs 0).available = (s.tcbs 0).available :=
  ⟨rfl, rfl, rfl, rfl, rfl⟩

/-- C9 (thread identifier, evaluated on the code): after `OS_Init` and
`OS_AddThreads` from the reset state, `OS_Id` returns 0 with the run pointer at
each of the three threads. -/
theorem C9_id_is_zero (TIME_1MS t0 t1 t2 : Nat) (r : Fin 3) :
    OS_Id (withRunPt (OS_AddThreads t0 t1 t2 (OS_Init TIME_1MS OS.boot)).1 (slot3 r)) =
      some 0 := by
  fin_cases r <;> rfl

/-- C10 (FREE marks, evaluated on the code): after `OS_Init` and `OS_AddThreads` from
the reset state, the run pointer is `tcbs[0]`, the ring is `0 → 1 → 2 → 0`, and
every one of the twenty slots, the three ring members included, is marked
`available = 1`. -/
theorem C10_ring_members_marked_free (TIME_1MS t0 t1 t2 : Nat) (i : Slot) :
    (OS_AddThreads t0 t1 t2 (OS_Init TIME_1MS OS.boot)).1.RunPt = some 0 ∧
    follow (OS_AddThreads t0 t1 t2 (OS_Init TIME_1MS OS.boot)).1 1 (some 0) = some 1 ∧
    follow (OS_AddThreads t0 t1 t2 (OS_Init TIME_1MS OS.boot)).1 2 (some 0) = some 2 ∧
    follow (OS_AddThreads t0 t1 t2 (OS_Init TIME_1MS OS.boot)).1 3 (some 0) = some 0 ∧
    ((OS_AddThreads t0 t1 t2 (OS_Init TIME_1MS OS.boot)).1.tcbs i).available = 1 := by
  refine ⟨rfl, rfl, rfl, rfl, ?_⟩
  fin_cases i <;> rfl

end OSKernel
